import Mathlib

/-!
Verification of the connection-routing and path-rendering engine of the
Chemical-PFD web frontend (`src/web-frontend/src/utils/routing.ts`).

The TypeScript module is shallowly embedded below.  JavaScript IEEE-754
numbers are modelled by real numbers (`ℝ`), `Math.sqrt` by `Real.sqrt`,
`Math.min`/`Math.max` by `min`/`max`, and `Math.abs` by `|·|`.  The SVG
path-data string assembled by the engine ("M x y", "L x y",
"Q cx cy x y" tokens) is modelled by a list of `PathCmd` values, one per
emitted command; optional/nullable values are modelled by `Option`, and
the `Record<number, PathMetadata>` output object by an association list
keyed by connection id.
-/

namespace Routing

noncomputable section

open Classical

/-- Canvas-space coordinate, `interface Point` of routing.ts. -/
structure Point where
  x : ℝ
  y : ℝ


/-- Direction/displacement, `interface Vector` of routing.ts. -/
structure Vector where
  x : ℝ
  y : ℝ


/-- Axis-aligned box, `interface Rect` of routing.ts. -/
structure Rect where
  x : ℝ
  y : ℝ
  width : ℝ
  height : ℝ


/-- Percentage-based attachment point on an item's rendered box
(`y = 100` is the top edge, `y = 0` the bottom edge). -/
structure Grip where
  x : ℝ
  y : ℝ


/-- An item on the canvas (`CanvasItem` of Canvas/types).  `grips` is
`Option` because the TypeScript field may be `undefined`
(`if (!item.grips ...)` in `getGripPosition`). -/
structure CanvasItem where
  id : ℕ
  x : ℝ
  y : ℝ
  width : ℝ
  height : ℝ
  naturalWidth : ℝ
  naturalHeight : ℝ
  grips : Option (List Grip)

/-- A wire between two grips (`Connection` of Canvas/types).
`waypoints`, when present and non-empty, overrides automatic routing. -/
structure Connection where
  id : ℕ
  sourceItemId : ℕ
  sourceGripIndex : ℕ
  targetItemId : ℕ
  targetGripIndex : ℕ
  waypoints : Option (List Point)

/-- Radius/width of a bridge jump (`const BRIDGE_SIZE = 12`). -/
def BRIDGE_SIZE : ℝ := 12

/-- Height of the bridge arc control point (`const BRIDGE_HEIGHT = 12`). -/
def BRIDGE_HEIGHT : ℝ := 12

/-- Standoff clearance distance (`export const STANDOFF_DIST = 20`). -/
def STANDOFF_DIST : ℝ := 20

/-- Modelled from the spec: `calculateAspectFit` is imported by routing.ts
from `./layout`, a file that is not part of the analysed sources.  Per the
spec (§4.1 and glossary) it returns the centered, aspect-correct render
rectangle of the natural content dimensions scaled to fit, without
cropping, inside the allotted `width × height` box (letterboxing). -/
def calculateAspectFit (width height naturalWidth naturalHeight : ℝ) : Rect :=
  let scale := min (width / naturalWidth) (height / naturalHeight)
  let renderWidth := naturalWidth * scale
  let renderHeight := naturalHeight * scale
  ⟨(width - renderWidth) / 2, (height - renderHeight) / 2, renderWidth, renderHeight⟩

/-- `getGripPosition`: absolute canvas position of a grip, or `none` when
the item has no grips or the index is out of range. -/
def getGripPosition (item : CanvasItem) (gripIndex : ℕ) : Option Point :=
  match item.grips with
  | none => none
  | some gs =>
    if gs.length ≤ gripIndex then none
    else
      let r := calculateAspectFit item.width item.height item.naturalWidth item.naturalHeight
      match gs.get? gripIndex with
      | none => none
      | some grip =>
        some ⟨item.x + r.x + grip.x / 100 * r.width,
              item.y + r.y + (100 - grip.y) / 100 * r.height⟩

/-- `getItemRects`: obstacle rectangles (aspect-fit boxes in absolute
coordinates) of all items. -/
def getItemRects (items : List CanvasItem) : List Rect :=
  items.map fun item =>
    let r := calculateAspectFit item.width item.height item.naturalWidth item.naturalHeight
    ⟨item.x + r.x, item.y + r.y, r.width, r.height⟩

/-- `segmentHitsRect`: axis-aligned bounding-box overlap test between the
segment `p1p2`'s bounding box and the rectangle `r`. -/
def segmentHitsRect (p1 p2 : Point) (r : Rect) : Prop :=
  ¬ (max p1.x p2.x < r.x ∨ min p1.x p2.x > r.x + r.width ∨
     max p1.y p2.y < r.y ∨ min p1.y p2.y > r.y + r.height)

/-- The `hitsObstacle` closure of `smartRoute`: some constituent segment of
`[start, ...pts, finish]` hits some obstacle rectangle. -/
def routeHits (start finish : Point) (obstacles : List Rect) (pts : List Point) : Prop :=
  let full := [start] ++ pts ++ [finish]
  ∃ pr ∈ full.zip full.tail, ∃ r ∈ obstacles, segmentHitsRect pr.1 pr.2 r

/-- `smartRoute`: pick the first of four fixed candidate bend sequences
whose segments avoid all obstacles; fall back to the first candidate. -/
def smartRoute (start finish : Point) (items : List CanvasItem) : List Point :=
  let obstacles := getItemRects items
  -- horizontal first
  let c1 : List Point := [⟨finish.x, start.y⟩]
  -- vertical first
  let c2 : List Point := [⟨start.x, finish.y⟩]
  -- dogleg mid X
  let midX := (start.x + finish.x) / 2
  let c3 : List Point := [⟨midX, start.y⟩, ⟨midX, finish.y⟩]
  -- dogleg mid Y
  let midY := (start.y + finish.y) / 2
  let c4 : List Point := [⟨start.x, midY⟩, ⟨finish.x, midY⟩]
  -- pick first clean candidate, fallback to c1
  if ¬ routeHits start finish obstacles c1 then c1
  else if ¬ routeHits start finish obstacles c2 then c2
  else if ¬ routeHits start finish obstacles c3 then c3
  else if ¬ routeHits start finish obstacles c4 then c4
  else c1

/-- A segment of a wire (`interface LineSegment` of routing.ts). -/
structure LineSegment where
  p1 : Point
  p2 : Point
  lineId : ℕ
  dir : Vector
  len : ℝ

/-- `sub`: vector from `b` to `a`. -/
def sub (a b : Point) : Vector := ⟨a.x - b.x, a.y - b.y⟩

/-- `add`: translate a point by a vector. -/
def add (a : Point) (b : Vector) : Point := ⟨a.x + b.x, a.y + b.y⟩

/-- `mult`: scale a vector. -/
def mult (v : Vector) (s : ℝ) : Vector := ⟨v.x * s, v.y * s⟩

/-- `len`: Euclidean length of a vector (`Math.sqrt`). -/
def len (v : Vector) : ℝ := Real.sqrt (v.x * v.x + v.y * v.y)

/-- `normalize`: unit vector in the direction of `v`, zero for the zero
vector. -/
def normalize (v : Vector) : Vector :=
  let l := len v
  if l = 0 then ⟨0, 0⟩ else ⟨v.x / l, v.y / l⟩

/-- `perp`: perpendicular vector, rotated 90° counter-clockwise. -/
def perp (v : Vector) : Vector := ⟨-v.y, v.x⟩

/-- `getIntersectionT`: distance along `seg1` of a strict interior crossing
with `seg2`, or `none` for parallel/collinear or out-of-range parameters. -/
def getIntersectionT (seg1 seg2 : LineSegment) : Option ℝ :=
  let p := seg1.p1
  let r := sub seg1.p2 seg1.p1
  let q := seg2.p1
  let s := sub seg2.p2 seg2.p1
  let rXs := r.x * s.y - r.y * s.x
  -- Collinear or parallel?
  if |rXs| < 1e-5 then none
  else
    let qp := sub q p
    let t := (qp.x * s.y - qp.y * s.x) / rXs
    let u := (qp.x * r.y - qp.y * r.x) / rXs
    let buffer := 0.001
    if buffer < t ∧ t < 1 - buffer ∧ buffer < u ∧ u < 1 - buffer then
      -- Return actual distance along seg1, not normalized t
      some (t * seg1.len)
    else none

/-- One token of the emitted SVG path string: moveto, lineto, or
quadratic Bézier (control point and endpoint). -/
inductive PathCmd where
  | M (p : Point)
  | L (p : Point)
  | Q (c : Point) (p : Point)

/-- Nearest side of an item box, the string union
`"top" | "bottom" | "left" | "right"`. -/
inductive Side where
  | top
  | bottom
  | left
  | right
  deriving DecidableEq

/-- `getClosestSide`: side of the box whose percentage distance to the
grip is minimal; `bottom` fallback for a missing grip; ties resolved in
evaluation order left, right, top, bottom. -/
def getClosestSide (g : Option Grip) : Side :=
  match g with
  | none => Side.bottom -- Fallback
  | some g =>
    let distLeft := g.x
    let distRight := 100 - g.x
    let distTop := 100 - g.y -- y=100 is top (0 distance)
    let distBottom := g.y    -- y=0 is bottom (0 distance)
    let m := min distLeft (min distRight (min distTop distBottom))
    if m = distLeft then Side.left
    else if m = distRight then Side.right
    else if m = distTop then Side.top
    else Side.bottom

/-- `getStandoff`: the grip point pushed `STANDOFF_DIST` outward along the
axis of its nearest side.  (The source's `if (!side) return p` guard and
trailing `return p` are unreachable because `getClosestSide` is total.) -/
def getStandoff (p : Point) (grip : Option Grip) : Point :=
  match getClosestSide grip with
  | Side.left => ⟨p.x - STANDOFF_DIST, p.y⟩
  | Side.right => ⟨p.x + STANDOFF_DIST, p.y⟩
  | Side.top => ⟨p.x, p.y - STANDOFF_DIST⟩ -- Top is UP (negative Y in canvas)
  | Side.bottom => ⟨p.x, p.y + STANDOFF_DIST⟩ -- Bottom is DOWN (positive Y)

/-- The segment-building loop of `calculateManualPathsWithBridges`: turn
consecutive point pairs into `LineSegment`s, dropping zero-length pairs
(`if (l > 0)` in the source). -/
def mkSegments (lineId : ℕ) : List Point → List LineSegment
  | [] => []
  | [_] => []
  | p1 :: p2 :: rest =>
    let diff := sub p2 p1
    let l := len diff
    (if 0 < l then [LineSegment.mk p1 p2 lineId (normalize diff) l] else []) ++
      mkSegments lineId (p2 :: rest)

/-- Per-connection data built by the first loop of
`calculateManualPathsWithBridges`: the connection's id, its `segments`,
and its `connectionWaypoints[conn.id]` entry (`bends`). -/
structure RawLine where
  id : ℕ
  segments : List LineSegment
  bends : List Point

/-- Body of the first loop of `calculateManualPathsWithBridges`:
resolve the two items and grips (skipping the connection — `none` — when
any of them is missing), compute standoffs, pick bends (user waypoints if
present and non-empty, otherwise `smartRoute`), and build segments from
`[start, startStandoff, ...bends, endStandoff, end]`. -/
def buildLine (items : List CanvasItem) (conn : Connection) : Option RawLine :=
  match items.find? (fun i => i.id == conn.sourceItemId),
        items.find? (fun i => i.id == conn.targetItemId) with
  | some source, some target =>
    match getGripPosition source conn.sourceGripIndex,
          getGripPosition target conn.targetGripIndex with
    | some pstart, some pend =>
      -- Standoff Logic
      let sourceGrip := source.grips.bind fun gs => gs.get? conn.sourceGripIndex
      let targetGrip := target.grips.bind fun gs => gs.get? conn.targetGripIndex
      let startStandoff := getStandoff pstart sourceGrip
      let endStandoff := getStandoff pend targetGrip
      let bends :=
        match conn.waypoints with
        | some ws => if 0 < ws.length then ws else smartRoute startStandoff endStandoff items
        | none => smartRoute startStandoff endStandoff items
      let points := [pstart, startStandoff] ++ bends ++ [endStandoff, pend]
      some ⟨conn.id, mkSegments conn.id points, bends⟩
    | _, _ => none
  | _, _ => none

/-- All successfully built lines, in connection order (`rawLines`). -/
def rawLines (connections : List Connection) (items : List CanvasItem) : List RawLine :=
  connections.filterMap (buildLine items)

/-- Flattened pool of all segments of all connections (`allSegments`). -/
def allSegments (connections : List Connection) (items : List CanvasItem) : List LineSegment :=
  (rawLines connections items).flatMap RawLine.segments

/-- The crossing scan for one segment: every segment of the pool belonging
to a connection with strictly lower id (equal ids and higher ids are
skipped: "the one with HIGHER ID jumps") contributes its intersection
parameter, if any, paired with the other connection's id. -/
def collectIntersections (pool : List LineSegment) (seg : LineSegment) : List (ℝ × ℕ) :=
  pool.filterMap fun otherSeg =>
    if otherSeg.lineId = seg.lineId then none
    else if seg.lineId < otherSeg.lineId then none
    else
      match getIntersectionT seg otherSeg with
      | some t => some (t, otherSeg.lineId)
      | none => none

/-- The collected intersections sorted by distance along the segment
(`intersections.sort((a, b) => a.t - b.t)`, a stable ascending sort). -/
def segIntersections (pool : List LineSegment) (seg : LineSegment) : List (ℝ × ℕ) :=
  (collectIntersections pool seg).mergeSort fun a b => decide (a.1 ≤ b.1)

/-- The bridge-reconstruction loop over the sorted intersections of one
segment.  Each emitted bridge is the triple `(startT, centerT, endT)`;
an intersection whose interval is degenerate (`startT >= endT`) emits
nothing and leaves `currentT` unchanged. -/
def bridgeLoop (length currentT : ℝ) : List (ℝ × ℕ) → List (ℝ × ℝ × ℝ)
  | [] => []
  | inter :: rest =>
    let centerT := inter.1
    let startT := max currentT (centerT - BRIDGE_SIZE)
    let endT := min length (centerT + BRIDGE_SIZE)
    if startT ≥ endT then bridgeLoop length currentT rest -- Too close or invalid
    else (startT, centerT, endT) :: bridgeLoop length endT rest

/-- All bridges accepted on one segment during a routing pass. -/
def segBridges (pool : List LineSegment) (seg : LineSegment) : List (ℝ × ℝ × ℝ) :=
  bridgeLoop seg.len 0 (segIntersections pool seg)

/-- Path commands emitted for one accepted bridge `(startT, centerT, endT)`:
a line to the bridge start, then a quadratic curve over the crossing whose
control point sits `2 * BRIDGE_HEIGHT` along the segment normal. -/
def bridgeCmds (seg : LineSegment) (b : ℝ × ℝ × ℝ) : List PathCmd :=
  let bridgeStartPos := add seg.p1 (mult seg.dir b.1)
  let bridgeEndPos := add seg.p1 (mult seg.dir b.2.2)
  let centerPos := add seg.p1 (mult seg.dir b.2.1)
  let controlPos := add centerPos (mult (perp seg.dir) (BRIDGE_HEIGHT * 2))
  [PathCmd.L bridgeStartPos, PathCmd.Q controlPos bridgeEndPos]

/-- Commands emitted for one segment: the bridge sequences in order, then
the closing line to the segment's endpoint. -/
def segCmds (pool : List LineSegment) (seg : LineSegment) : List PathCmd :=
  (segBridges pool seg).flatMap (bridgeCmds seg) ++ [PathCmd.L seg.p2]

/-- The full command list of one connection's `pathData`: a moveto at the
first segment's start (when any segment exists) followed by each segment's
commands. -/
def linePath (pool : List LineSegment) (line : RawLine) : List PathCmd :=
  (match line.segments with
   | [] => []
   | s :: _ => [PathCmd.M s.p1]) ++
  line.segments.flatMap (segCmds pool)

/-- Mathematical `atan2`, modelling `Math.atan2` (radians). -/
def atan2 (y x : ℝ) : ℝ :=
  if 0 < x then Real.arctan (y / x)
  else if x < 0 then
    (if 0 ≤ y then Real.arctan (y / x) + Real.pi else Real.arctan (y / x) - Real.pi)
  else
    (if 0 < y then Real.pi / 2 else if y < 0 then -(Real.pi / 2) else 0)

/-- Output record per connection (`interface PathMetadata`). -/
structure PathMetadata where
  pathData : List PathCmd
  endPoint : Option Point
  arrowAngle : ℝ
  waypoints : List Point

/-- Second-loop body of `calculateManualPathsWithBridges`: assemble one
connection's path commands, arrowhead anchor (pulled back 4.5 units along
the last segment) and arrow angle (degrees, rotated +90°). -/
def lineMetadata (pool : List LineSegment) (line : RawLine) : PathMetadata :=
  let cmds := linePath pool line
  match line.segments.getLast? with
  | some lastSeg =>
    { pathData := cmds
      endPoint := some ⟨lastSeg.p2.x - lastSeg.dir.x * 4.5,
                        lastSeg.p2.y - lastSeg.dir.y * 4.5⟩
      arrowAngle := atan2 lastSeg.dir.y lastSeg.dir.x * (180 / Real.pi) + 90
      waypoints := line.bends }
  | none =>
    { pathData := cmds, endPoint := none, arrowAngle := 0, waypoints := line.bends }

/-- `calculateManualPathsWithBridges`: the orchestrating entry point.  The
returned association list keyed by connection id models the
`Record<number, PathMetadata>` result. -/
def calculateManualPathsWithBridges (connections : List Connection)
    (items : List CanvasItem) : List (ℕ × PathMetadata) :=
  let lines := rawLines connections items
  let pool := allSegments connections items
  lines.map fun line => (line.id, lineMetadata pool line)

/-- The point at distance `t` along a segment from its start, in the
parametrization `p1 + t • dir` used by the bridge builder. -/
def pointAt (seg : LineSegment) (t : ℝ) : Point :=
  add seg.p1 (mult seg.dir t)

/-- `p` lies on the closed straight chord from `a` to `c`. -/
def between (a p c : Point) : Prop :=
  ∃ μ : ℝ, 0 ≤ μ ∧ μ ≤ 1 ∧
    p.x = a.x + μ * (c.x - a.x) ∧ p.y = a.y + μ * (c.y - a.y)

/-- The command list contains a bridge (an `L`-then-`Q` pair) whose chord
covers the point `p`: the rendered path jumps over `p` rather than passing
straight through it. -/
def hasQBridgeAt (cmds : List PathCmd) (p : Point) : Prop :=
  ∃ b ctrl q, List.IsInfix [PathCmd.L b, PathCmd.Q ctrl q] cmds ∧ between b p q

/-- A path command is a quadratic-curve (bridge) command. -/
def PathCmd.isQ : PathCmd → Prop
  | PathCmd.Q _ _ => True
  | _ => False

/-- Two points span an axis-aligned (exactly horizontal or exactly
vertical) segment. -/
def axisAlignedSeg (seg : LineSegment) : Prop :=
  seg.p1.x = seg.p2.x ∨ seg.p1.y = seg.p2.y

/-- A concrete item used to exercise the grip formula: a `200 × 100` box
with matching natural dimensions (no letterboxing), a bottom-left grip
and a top-right grip. -/
def itemA : CanvasItem := ⟨1, 3, 5, 200, 100, 200, 100, some [⟨0, 0⟩, ⟨100, 100⟩]⟩

/-- A concrete item whose `grips` field is absent. -/
def itemNoGrips : CanvasItem := ⟨2, 0, 0, 10, 10, 10, 10, none⟩

/-- Concrete segments exercising `getIntersectionT`: a horizontal unit
parametrized segment of length 10 and a vertical one crossing it in the
middle. -/
def segH : LineSegment := ⟨⟨0, 0⟩, ⟨10, 0⟩, 1, ⟨1, 0⟩, 10⟩

/-- Vertical counterpart of `segH`, crossing it at `(5, 0)`. -/
def segV : LineSegment := ⟨⟨5, -5⟩, ⟨5, 5⟩, 2, ⟨0, 1⟩, 10⟩

/-- A connection used by the C9 witness: automatically routed (no
waypoints) between two concrete items. -/
def connAuto : Connection := ⟨7, 11, 0, 12, 0, none⟩

/-- Source item of `connAuto`: a `10 × 10` box at the origin with one grip
on its right edge. -/
def itemL : CanvasItem := ⟨11, 0, 0, 10, 10, 10, 10, some [⟨100, 50⟩]⟩

/-- Target item of `connAuto`: a `10 × 10` box to the right with one grip
on its left edge. -/
def itemR : CanvasItem := ⟨12, 100, 0, 10, 10, 10, 10, some [⟨0, 50⟩]⟩

/-- A routable concrete connection between `itemL` and `itemR`, used by
the C8 witness. -/
def connGood : Connection := ⟨1, 11, 0, 12, 0, none⟩

/-- A concrete connection whose source item id matches no item. -/
def connStale : Connection := ⟨2, 99, 0, 12, 0, none⟩

/-- Item anchoring the top of the vertical wire `conn1` at `x = 50`:
its single bottom-edge grip resolves to `(50, -20)`. -/
def itemV1a : CanvasItem := ⟨101, 45, -30, 10, 10, 10, 10, some [⟨50, 0⟩]⟩

/-- Item anchoring the bottom of `conn1`: its top-edge grip resolves to
`(50, 130)`. -/
def itemV1b : CanvasItem := ⟨102, 45, 130, 10, 10, 10, 10, some [⟨50, 100⟩]⟩

/-- Item anchoring the left end of the horizontal wire `conn2` at
`y = 50`: its right-edge grip resolves to `(-30, 50)`. -/
def itemH2a : CanvasItem := ⟨201, -40, 45, 10, 10, 10, 10, some [⟨100, 50⟩]⟩

/-- Item anchoring the right end of `conn2`: its left-edge grip resolves
to `(140, 50)`. -/
def itemH2b : CanvasItem := ⟨202, 140, 45, 10, 10, 10, 10, some [⟨0, 50⟩]⟩

/-- Item anchoring the top of the vertical wire `conn3` at `x = 56`. -/
def itemV3a : CanvasItem := ⟨301, 51, -30, 10, 10, 10, 10, some [⟨50, 0⟩]⟩

/-- Item anchoring the bottom of `conn3`. -/
def itemV3b : CanvasItem := ⟨302, 51, 130, 10, 10, 10, 10, some [⟨50, 100⟩]⟩

/-- Item anchoring the left end of the horizontal wire `conn4` at
`y = 56`. -/
def itemH4a : CanvasItem := ⟨401, -40, 51, 10, 10, 10, 10, some [⟨100, 50⟩]⟩

/-- Item anchoring the right end of `conn4`. -/
def itemH4b : CanvasItem := ⟨402, 140, 51, 10, 10, 10, 10, some [⟨0, 50⟩]⟩

/-- Connection 1: a vertical wire along `x = 50` (waypoint at its own
start standoff, so routing is fully user-determined). -/
def conn1 : Connection := ⟨1, 101, 0, 102, 0, some [⟨50, 0⟩]⟩

/-- Connection 2: a horizontal wire along `y = 50`; it crosses `conn1` at
`(50, 50)`. -/
def conn2 : Connection := ⟨2, 201, 0, 202, 0, some [⟨-10, 50⟩]⟩

/-- Connection 3: a vertical wire along `x = 56`; it crosses `conn2` at
`(56, 50)`. -/
def conn3 : Connection := ⟨3, 301, 0, 302, 0, some [⟨56, 0⟩]⟩

/-- Connection 4: a horizontal wire along `y = 56`; it crosses `conn1` at
`(50, 56)` and `conn3` at `(56, 56)`, two crossings only 6 units apart. -/
def conn4 : Connection := ⟨4, 401, 0, 402, 0, some [⟨-10, 56⟩]⟩

/-- The concrete crossing scenario: four connections over eight items. -/
def CONNS : List Connection := [conn1, conn2, conn3, conn4]

/-- Items of the concrete crossing scenario. -/
def ITEMS : List CanvasItem :=
  [itemV1a, itemV1b, itemH2a, itemH2b, itemV3a, itemV3b, itemH4a, itemH4b]

/-- Segment: `conn1` grip stub `(50, -20) → (50, 0)`. -/
def s11 : LineSegment := ⟨⟨50, -20⟩, ⟨50, 0⟩, 1, ⟨0, 1⟩, 20⟩

/-- Segment: `conn1` trunk `(50, 0) → (50, 110)`. -/
def s12 : LineSegment := ⟨⟨50, 0⟩, ⟨50, 110⟩, 1, ⟨0, 1⟩, 110⟩

/-- Segment: `conn1` grip stub `(50, 110) → (50, 130)`. -/
def s13 : LineSegment := ⟨⟨50, 110⟩, ⟨50, 130⟩, 1, ⟨0, 1⟩, 20⟩

/-- Segment: `conn2` grip stub `(-30, 50) → (-10, 50)`. -/
def s21 : LineSegment := ⟨⟨-30, 50⟩, ⟨-10, 50⟩, 2, ⟨1, 0⟩, 20⟩

/-- Segment: `conn2` trunk `(-10, 50) → (120, 50)`. -/
def s22 : LineSegment := ⟨⟨-10, 50⟩, ⟨120, 50⟩, 2, ⟨1, 0⟩, 130⟩

/-- Segment: `conn2` grip stub `(120, 50) → (140, 50)`. -/
def s23 : LineSegment := ⟨⟨120, 50⟩, ⟨140, 50⟩, 2, ⟨1, 0⟩, 20⟩

/-- Segment: `conn3` grip stub `(56, -20) → (56, 0)`. -/
def s31 : LineSegment := ⟨⟨56, -20⟩, ⟨56, 0⟩, 3, ⟨0, 1⟩, 20⟩

/-- Segment: `conn3` trunk `(56, 0) → (56, 110)`. -/
def s32 : LineSegment := ⟨⟨56, 0⟩, ⟨56, 110⟩, 3, ⟨0, 1⟩, 110⟩

/-- Segment: `conn3` grip stub `(56, 110) → (56, 130)`. -/
def s33 : LineSegment := ⟨⟨56, 110⟩, ⟨56, 130⟩, 3, ⟨0, 1⟩, 20⟩

/-- Segment: `conn4` grip stub `(-30, 56) → (-10, 56)`. -/
def s41 : LineSegment := ⟨⟨-30, 56⟩, ⟨-10, 56⟩, 4, ⟨1, 0⟩, 20⟩

/-- Segment: `conn4` trunk `(-10, 56) → (120, 56)`. -/
def s42 : LineSegment := ⟨⟨-10, 56⟩, ⟨120, 56⟩, 4, ⟨1, 0⟩, 130⟩

/-- Segment: `conn4` grip stub `(120, 56) → (140, 56)`. -/
def s43 : LineSegment := ⟨⟨120, 56⟩, ⟨140, 56⟩, 4, ⟨1, 0⟩, 20⟩

/-- The built line of `conn1`. -/
def line1 : RawLine := ⟨1, [s11, s12, s13], [⟨50, 0⟩]⟩

/-- The built line of `conn2`. -/
def line2 : RawLine := ⟨2, [s21, s22, s23], [⟨-10, 50⟩]⟩

/-- The built line of `conn3`. -/
def line3 : RawLine := ⟨3, [s31, s32, s33], [⟨56, 0⟩]⟩

/-- The built line of `conn4`. -/
def line4 : RawLine := ⟨4, [s41, s42, s43], [⟨-10, 56⟩]⟩

-- ===================================================================
-- Theorems
-- ===================================================================

/-- Helper: the closest side is `left` when the left distance is minimal
(ties included, since `left` is tested first). -/
lemma getClosestSide_eq_left (g : Grip) (h1 : g.x ≤ 100 - g.x)
    (h2 : g.x ≤ 100 - g.y) (h3 : g.x ≤ g.y) :
    getClosestSide (some g) = Side.left := by
  have hm : min g.x (min (100 - g.x) (min (100 - g.y) g.y)) = g.x :=
    min_eq_left (le_min h1 (le_min h2 h3))
  simp only [getClosestSide, hm]
  simp

/-- Helper: the closest side is `right` when the right distance is minimal
and strictly beats the left one. -/
lemma getClosestSide_eq_right (g : Grip) (h1 : 100 - g.x < g.x)
    (h2 : 100 - g.x ≤ 100 - g.y) (h3 : 100 - g.x ≤ g.y) :
    getClosestSide (some g) = Side.right := by
  have hm : min g.x (min (100 - g.x) (min (100 - g.y) g.y)) = 100 - g.x := by
    rw [min_eq_left (le_min h2 h3), min_eq_right h1.le]
  simp only [getClosestSide, hm]
  simp [ne_of_lt h1]

/-- Helper: the closest side is `top` when the top distance strictly beats
left and right and is at most the bottom one. -/
lemma getClosestSide_eq_top (g : Grip) (h1 : 100 - g.y < g.x)
    (h2 : 100 - g.y < 100 - g.x) (h3 : 100 - g.y ≤ g.y) :
    getClosestSide (some g) = Side.top := by
  have hm : min g.x (min (100 - g.x) (min (100 - g.y) g.y)) = 100 - g.y := by
    rw [min_eq_left h3, min_eq_right h2.le, min_eq_right (le_of_lt h1)]
  simp only [getClosestSide, hm]
  simp [ne_of_lt h1, ne_of_lt h2]

/-- Helper: the closest side is `bottom` when the bottom distance strictly
beats the other three. -/
lemma getClosestSide_eq_bottom (g : Grip) (h1 : g.y < g.x)
    (h2 : g.y < 100 - g.x) (h3 : g.y < 100 - g.y) :
    getClosestSide (some g) = Side.bottom := by
  have hm : min g.x (min (100 - g.x) (min (100 - g.y) g.y)) = g.y := by
    rw [min_eq_right h3.le, min_eq_right h2.le, min_eq_right h1.le]
  simp only [getClosestSide, hm]
  simp [ne_of_lt h1, ne_of_lt h2, ne_of_lt h3]

/-- C5: `getStandoff` offsets the resolved grip point by exactly 20 units
along the axis of the grip's nearest side — left gives `x - 20`, right
`x + 20`, top `y - 20`, bottom `y + 20` — where the nearest side minimizes
the percentage distances `distLeft = g.x`, `distRight = 100 - g.x`,
`distTop = 100 - g.y`, `distBottom = g.y`, ties broken in evaluation order
left, right, top, bottom. -/
theorem getStandoff_offsets_by_closest_side (p : Point) (g : Grip) :
    (g.x ≤ 100 - g.x ∧ g.x ≤ 100 - g.y ∧ g.x ≤ g.y →
      getStandoff p (some g) = ⟨p.x - 20, p.y⟩) ∧
    (100 - g.x < g.x ∧ 100 - g.x ≤ 100 - g.y ∧ 100 - g.x ≤ g.y →
      getStandoff p (some g) = ⟨p.x + 20, p.y⟩) ∧
    (100 - g.y < g.x ∧ 100 - g.y < 100 - g.x ∧ 100 - g.y ≤ g.y →
      getStandoff p (some g) = ⟨p.x, p.y - 20⟩) ∧
    (g.y < g.x ∧ g.y < 100 - g.x ∧ g.y < 100 - g.y →
      getStandoff p (some g) = ⟨p.x, p.y + 20⟩) := by
  refine ⟨fun ⟨h1, h2, h3⟩ => ?_, fun ⟨h1, h2, h3⟩ => ?_,
          fun ⟨h1, h2, h3⟩ => ?_, fun ⟨h1, h2, h3⟩ => ?_⟩
  · rw [getStandoff, getClosestSide_eq_left g h1 h2 h3]; rfl
  · rw [getStandoff, getClosestSide_eq_right g h1 h2 h3]; rfl
  · rw [getStandoff, getClosestSide_eq_top g h1 h2 h3]; rfl
  · rw [getStandoff, getClosestSide_eq_bottom g h1 h2 h3]; rfl

/-- Witness for C5: a grip 10% from the left edge stands off 20 units to
the left. -/
theorem getStandoff_offsets_by_closest_side_witness :
    getStandoff ⟨0, 0⟩ (some ⟨10, 50⟩) = ⟨0 - 20, 0⟩ :=
  (getStandoff_offsets_by_closest_side ⟨0, 0⟩ ⟨10, 50⟩).1
    ⟨by norm_num, by norm_num, by norm_num⟩

/-- C10: a missing grip (`undefined`/`null`) falls back to side `bottom`,
so `getStandoff` still offsets the point 20 units downward instead of
returning it unchanged. -/
theorem getStandoff_missing_grip_goes_bottom (p : Point) :
    getClosestSide none = Side.bottom ∧ getStandoff p none = ⟨p.x, p.y + 20⟩ :=
  ⟨rfl, rfl⟩

/-- C4: `getIntersectionT` returns `none` whenever the two direction
vectors' 2D cross product is below `1e-5` in absolute value, and otherwise
returns `some v` exactly when both intersection parameters lie strictly
inside `(0.001, 1 - 0.001)`, with `v` equal to `t` times the first
segment's stored length. -/
theorem getIntersectionT_characterization (seg1 seg2 : LineSegment) :
    let r := sub seg1.p2 seg1.p1
    let s := sub seg2.p2 seg2.p1
    let rXs := r.x * s.y - r.y * s.x
    let qp := sub seg2.p1 seg1.p1
    let t := (qp.x * s.y - qp.y * s.x) / rXs
    let u := (qp.x * r.y - qp.y * r.x) / rXs
    (|rXs| < 1e-5 → getIntersectionT seg1 seg2 = none) ∧
    (¬ |rXs| < 1e-5 → ∀ v : ℝ, getIntersectionT seg1 seg2 = some v ↔
      (0.001 < t ∧ t < 1 - 0.001 ∧ 0.001 < u ∧ u < 1 - 0.001 ∧ v = t * seg1.len)) := by
  intro r s rXs qp t u
  constructor
  · intro h
    simp only [getIntersectionT, if_pos h]
  · intro h v
    simp only [getIntersectionT, if_neg h]
    split_ifs with hc
    · obtain ⟨h1, h2, h3, h4⟩ := hc
      simp only [Option.some.injEq]
      constructor
      · intro hv; exact ⟨h1, h2, h3, h4, hv.symm⟩
      · intro ⟨_, _, _, _, hv⟩; exact hv.symm
    · simp only [false_iff, reduceCtorEq]
      intro ⟨h1, h2, h3, h4, _⟩
      exact hc ⟨h1, h2, h3, h4⟩

/-- Witness for C4: the concrete horizontal and vertical segments cross at
parameter `t = 1/2`, giving distance `5` along the first segment. -/
theorem getIntersectionT_characterization_witness :
    getIntersectionT segH segV = some 5 := by
  have h := (getIntersectionT_characterization segH segV).2
  rw [(h (by norm_num [sub, segH, segV])) 5]
  norm_num [sub, segH, segV]

/-- C6: for a valid grip index, `getGripPosition` returns exactly
`(item.x + renderX + (grip.x/100)·renderWidth,
item.y + renderY + ((100 - grip.y)/100)·renderHeight)` where the render
rectangle is the item's aspect-fit box. -/
theorem getGripPosition_formula (item : CanvasItem) (gs : List Grip) (grip : Grip)
    (gripIndex : ℕ) (hgs : item.grips = some gs) (hlen : gripIndex < gs.length)
    (hget : gs.get? gripIndex = some grip) :
    getGripPosition item gripIndex =
      some ⟨item.x + (calculateAspectFit item.width item.height item.naturalWidth item.naturalHeight).x
              + grip.x / 100 *
                (calculateAspectFit item.width item.height item.naturalWidth item.naturalHeight).width,
            item.y + (calculateAspectFit item.width item.height item.naturalWidth item.naturalHeight).y
              + (100 - grip.y) / 100 *
                (calculateAspectFit item.width item.height item.naturalWidth item.naturalHeight).height⟩ := by
  simp only [getGripPosition, hgs, if_neg (not_le.mpr hlen), hget]

/-- Witness for C6: on a `200 × 100` item at `(3, 5)` with no letterboxing,
the bottom-left grip `(0,0)` resolves to `(item.x, item.y + 100)` and the
top-right grip `(100,100)` resolves to `(item.x + 200, item.y)`. -/
theorem getGripPosition_formula_witness :
    getGripPosition itemA 0 = some ⟨3, 5 + 100⟩ ∧
    getGripPosition itemA 1 = some ⟨3 + 200, 5⟩ := by
  constructor
  · rw [getGripPosition_formula itemA [⟨0, 0⟩, ⟨100, 100⟩] ⟨0, 0⟩ 0 rfl (by norm_num) rfl]
    norm_num [calculateAspectFit, itemA]
  · rw [getGripPosition_formula itemA [⟨0, 0⟩, ⟨100, 100⟩] ⟨100, 100⟩ 1 rfl (by norm_num) rfl]
    norm_num [calculateAspectFit, itemA]

/-- C7: `getGripPosition` returns `none` (instead of crashing) whenever
the item has no grips array or the grip index is out of range for it. -/
theorem getGripPosition_invalid_index_none (item : CanvasItem) (gripIndex : ℕ)
    (h : item.grips = none ∨ ∃ gs, item.grips = some gs ∧ gs.length ≤ gripIndex) :
    getGripPosition item gripIndex = none := by
  rcases h with h | ⟨gs, hgs, hlen⟩
  · simp only [getGripPosition, h]
  · simp only [getGripPosition, hgs, if_pos hlen]

/-- Witness for C7: an out-of-range index on a two-grip item and any index
on a gripless item both yield `none`. -/
theorem getGripPosition_invalid_index_none_witness :
    getGripPosition itemA 2 = none ∧ getGripPosition itemNoGrips 0 = none :=
  ⟨getGripPosition_invalid_index_none itemA 2
      (Or.inr ⟨[⟨0, 0⟩, ⟨100, 100⟩], rfl, by norm_num⟩),
    getGripPosition_invalid_index_none itemNoGrips 0 (Or.inl rfl)⟩

/-- C2: `smartRoute` evaluates the four candidate bend sequences in the
fixed order horizontal-then-vertical, vertical-then-horizontal, mid-X
dogleg, mid-Y dogleg; a candidate is accepted iff none of its constituent
segments hits an obstacle rectangle by the axis-aligned bounding-box test;
the first accepted candidate is returned, the first candidate is returned
when all four are rejected, and the result is never empty. -/
theorem smartRoute_first_clean_candidate (start finish : Point) (items : List CanvasItem) :
    let obstacles := getItemRects items
    let c1 : List Point := [⟨finish.x, start.y⟩]
    let c2 : List Point := [⟨start.x, finish.y⟩]
    let c3 : List Point := [⟨(start.x + finish.x) / 2, start.y⟩,
                            ⟨(start.x + finish.x) / 2, finish.y⟩]
    let c4 : List Point := [⟨start.x, (start.y + finish.y) / 2⟩,
                            ⟨finish.x, (start.y + finish.y) / 2⟩]
    (¬ routeHits start finish obstacles c1 → smartRoute start finish items = c1) ∧
    (routeHits start finish obstacles c1 → ¬ routeHits start finish obstacles c2 →
      smartRoute start finish items = c2) ∧
    (routeHits start finish obstacles c1 → routeHits start finish obstacles c2 →
      ¬ routeHits start finish obstacles c3 → smartRoute start finish items = c3) ∧
    (routeHits start finish obstacles c1 → routeHits start finish obstacles c2 →
      routeHits start finish obstacles c3 → ¬ routeHits start finish obstacles c4 →
      smartRoute start finish items = c4) ∧
    (routeHits start finish obstacles c1 → routeHits start finish obstacles c2 →
      routeHits start finish obstacles c3 → routeHits start finish obstacles c4 →
      smartRoute start finish items = c1) ∧
    smartRoute start finish items ≠ [] ∧
    (smartRoute start finish items = c1 ∨ smartRoute start finish items = c2 ∨
      smartRoute start finish items = c3 ∨ smartRoute start finish items = c4) ∧
    (∀ pts : List Point, routeHits start finish obstacles pts ↔
      ∃ pr ∈ (([start] ++ pts ++ [finish]).zip ([start] ++ pts ++ [finish]).tail),
        ∃ r ∈ obstacles,
          ¬ (max pr.1.x pr.2.x < r.x ∨ min pr.1.x pr.2.x > r.x + r.width ∨
             max pr.1.y pr.2.y < r.y ∨ min pr.1.y pr.2.y > r.y + r.height)) := by
  intro obstacles c1 c2 c3 c4
  have hsr : smartRoute start finish items =
      if ¬ routeHits start finish obstacles c1 then c1
      else if ¬ routeHits start finish obstacles c2 then c2
      else if ¬ routeHits start finish obstacles c3 then c3
      else if ¬ routeHits start finish obstacles c4 then c4
      else c1 := rfl
  refine ⟨?_, ?_, ?_, ?_, ?_, ?_, ?_, ?_⟩
  · intro h1; rw [hsr, if_pos h1]
  · intro h1 h2; rw [hsr, if_neg (not_not_intro h1), if_pos h2]
  · intro h1 h2 h3
    rw [hsr, if_neg (not_not_intro h1), if_neg (not_not_intro h2), if_pos h3]
  · intro h1 h2 h3 h4
    rw [hsr, if_neg (not_not_intro h1), if_neg (not_not_intro h2),
        if_neg (not_not_intro h3), if_pos h4]
  · intro h1 h2 h3 h4
    rw [hsr, if_neg (not_not_intro h1), if_neg (not_not_intro h2),
        if_neg (not_not_intro h3), if_neg (not_not_intro h4)]
  · rw [hsr]; split_ifs <;> simp
  · rw [hsr]; split_ifs <;> simp
  · intro pts
    simp only [routeHits, segmentHitsRect]

/-- Witness for C2: with no items there are no obstacles, so the first
candidate (single bend at `(finish.x, start.y)`) is returned. -/
theorem smartRoute_first_clean_candidate_witness :
    smartRoute ⟨0, 0⟩ ⟨10, 7⟩ [] = [⟨10, 0⟩] :=
  (smartRoute_first_clean_candidate ⟨0, 0⟩ ⟨10, 7⟩ []).1
    (by simp [routeHits, getItemRects])

/-- Helper: points related by a standoff offset are axis-aligned. -/
lemma standoff_axis_aligned (p : Point) (g : Option Grip) :
    p.x = (getStandoff p g).x ∨ p.y = (getStandoff p g).y := by
  unfold getStandoff
  cases getClosestSide g <;> simp

/-- Helper: the full point sequence `start :: bends ++ [finish]` produced
by `smartRoute` is an orthogonal chain: consecutive points always share an
`x` or a `y` coordinate. -/
lemma smartRoute_chain (s f : Point) (items : List CanvasItem) :
    List.Chain' (fun a b : Point => a.x = b.x ∨ a.y = b.y)
      ([s] ++ smartRoute s f items ++ [f]) := by
  have hsr := smartRoute_first_clean_candidate s f items
  rcases hsr.2.2.2.2.2.2.1 with h | h | h | h <;>
    (rw [h]; simp [List.chain'_cons, List.chain'_singleton])

/-- Helper: segments built from an orthogonal point chain are all
axis-aligned. -/
lemma mkSegments_axis_aligned (lineId : ℕ) (pts : List Point)
    (h : List.Chain' (fun a b : Point => a.x = b.x ∨ a.y = b.y) pts) :
    List.Forall axisAlignedSeg (mkSegments lineId pts) := by
  induction pts with
  | nil => simp [mkSegments]
  | cons p1 rest ih =>
    cases rest with
    | nil => simp [mkSegments]
    | cons p2 rest2 =>
      rw [List.chain'_cons] at h
      have hrec := ih h.2
      rw [mkSegments, List.forall_iff_forall_mem]
      intro seg hseg
      rw [List.mem_append] at hseg
      rcases hseg with hseg | hseg
      · split_ifs at hseg with hl
        · rw [List.mem_singleton] at hseg
          rw [hseg]
          exact h.1
        · simp at hseg
      · exact (List.forall_iff_forall_mem.mp hrec) seg hseg

/-- C9: every segment built for an automatically routed connection
(absent or empty `waypoints`) — grip to standoff, standoff through the
`smartRoute` bends, and standoff back to grip — is exactly horizontal or
exactly vertical. -/
theorem auto_routed_segments_axis_aligned (items : List CanvasItem) (conn : Connection)
    (hauto : conn.waypoints = none ∨ conn.waypoints = some []) :
    List.Forall axisAlignedSeg ((buildLine items conn).elim [] RawLine.segments) := by
  cases hs : items.find? (fun i => i.id == conn.sourceItemId) with
  | none => simp [buildLine, hs]
  | some source =>
  cases ht : items.find? (fun i => i.id == conn.targetItemId) with
  | none => simp [buildLine, hs, ht]
  | some target =>
  cases hgs : getGripPosition source conn.sourceGripIndex with
  | none => simp [buildLine, hs, ht, hgs]
  | some pstart =>
  cases hgt : getGripPosition target conn.targetGripIndex with
  | none => simp [buildLine, hs, ht, hgs, hgt]
  | some pend =>
  have hbends : ∀ startStandoff endStandoff : Point,
      (match conn.waypoints with
        | some ws => if 0 < ws.length then ws else smartRoute startStandoff endStandoff items
        | none => smartRoute startStandoff endStandoff items) =
      smartRoute startStandoff endStandoff items := by
    intro ss es
    rcases hauto with h | h <;> rw [h] <;> simp
  simp only [buildLine, hs, ht, hgs, hgt, hbends, Option.elim_some]
  apply mkSegments_axis_aligned
  set ss := getStandoff pstart (source.grips.bind fun gs => gs.get? conn.sourceGripIndex)
    with hss
  set es := getStandoff pend (target.grips.bind fun gs => gs.get? conn.targetGripIndex)
    with hes
  have hchain := smartRoute_chain ss es items
  have h1 : List.Chain' (fun a b : Point => a.x = b.x ∨ a.y = b.y)
      (([ss] ++ smartRoute ss es items ++ [es]) ++ [pend]) := by
    refine List.Chain'.append hchain (List.chain'_singleton pend) ?_
    intro x hx y hy
    rw [List.getLast?_concat] at hx
    simp only [Option.mem_def, Option.some.injEq] at hx
    simp only [List.head?_cons, Option.mem_def, Option.some.injEq] at hy
    rw [← hx, ← hy, hes]
    rcases standoff_axis_aligned pend (target.grips.bind fun gs => gs.get? conn.targetGripIndex)
      with h | h
    · exact Or.inl h.symm
    · exact Or.inr h.symm
  have h2 : List.Chain' (fun a b : Point => a.x = b.x ∨ a.y = b.y)
      ([pstart] ++ (([ss] ++ smartRoute ss es items ++ [es]) ++ [pend])) := by
    refine List.Chain'.append (List.chain'_singleton pstart) h1 ?_
    intro x hx y hy
    simp only [List.getLast?_singleton, Option.mem_def, Option.some.injEq] at hx
    simp only [List.cons_append, List.head?_cons, Option.mem_def, Option.some.injEq] at hy
    rw [← hx, ← hy, hss]
    exact standoff_axis_aligned pstart (source.grips.bind fun gs => gs.get? conn.sourceGripIndex)
  have heq : [pstart] ++ (([ss] ++ smartRoute ss es items ++ [es]) ++ [pend]) =
      [pstart, ss] ++ smartRoute ss es items ++ [es, pend] := by
    simp
  rw [heq] at h2
  exact h2

/-- Witness for C9: the automatically routed concrete connection's
segments are all axis-aligned. -/
theorem auto_routed_segments_axis_aligned_witness :
    List.Forall axisAlignedSeg ((buildLine [itemL, itemR] connAuto).elim [] RawLine.segments) :=
  auto_routed_segments_axis_aligned [itemL, itemR] connAuto (Or.inl rfl)

/-- Helper: a successfully built line carries its connection's id. -/
lemma buildLine_id (items : List CanvasItem) (conn : Connection) (l : RawLine)
    (h : buildLine items conn = some l) : l.id = conn.id := by
  unfold buildLine at h
  split at h
  · split at h
    · injection h with h2
      rw [← h2]
    · exact absurd h (by simp)
  · exact absurd h (by simp)

/-- Helper: `buildLine` skips a connection (returns `none`) exactly when a
referenced item is missing or a grip position fails to resolve. -/
lemma buildLine_eq_none_iff (items : List CanvasItem) (conn : Connection) :
    buildLine items conn = none ↔
      (items.find? (fun i => i.id == conn.sourceItemId) = none ∨
       items.find? (fun i => i.id == conn.targetItemId) = none ∨
       (∃ source, items.find? (fun i => i.id == conn.sourceItemId) = some source ∧
          getGripPosition source conn.sourceGripIndex = none) ∨
       (∃ target, items.find? (fun i => i.id == conn.targetItemId) = some target ∧
          getGripPosition target conn.targetGripIndex = none)) := by
  cases hs : items.find? (fun i => i.id == conn.sourceItemId) with
  | none => simp [buildLine, hs]
  | some source =>
  cases ht : items.find? (fun i => i.id == conn.targetItemId) with
  | none => simp [buildLine, hs, ht]
  | some target =>
  cases hgs : getGripPosition source conn.sourceGripIndex with
  | none => simp [buildLine, hs, ht, hgs]
  | some pstart =>
  cases hgt : getGripPosition target conn.targetGripIndex with
  | none => simp [buildLine, hs, ht, hgs, hgt]
  | some pend => simp [buildLine, hs, ht, hgs, hgt]

/-- C8: under distinct connection ids, the output map of
`calculateManualPathsWithBridges` has no entry for a connection exactly
when one of its referenced items is missing or one of its grip positions
fails to resolve; every other (routable) connection keeps its entry.  The
pass is a total function, so it never throws. -/
theorem unroutable_connection_omitted (connections : List Connection)
    (items : List CanvasItem) (hnodup : (connections.map Connection.id).Nodup)
    (conn : Connection) (hmem : conn ∈ connections) :
    (List.lookup conn.id (calculateManualPathsWithBridges connections items) = none ↔
      buildLine items conn = none) ∧
    (buildLine items conn = none ↔
      (items.find? (fun i => i.id == conn.sourceItemId) = none ∨
       items.find? (fun i => i.id == conn.targetItemId) = none ∨
       (∃ source, items.find? (fun i => i.id == conn.sourceItemId) = some source ∧
          getGripPosition source conn.sourceGripIndex = none) ∨
       (∃ target, items.find? (fun i => i.id == conn.targetItemId) = some target ∧
          getGripPosition target conn.targetGripIndex = none))) := by
  refine ⟨?_, buildLine_eq_none_iff items conn⟩
  have hlookup : List.lookup conn.id (calculateManualPathsWithBridges connections items) = none ↔
      ∀ line ∈ rawLines connections items, conn.id ≠ line.id := by
    rw [List.lookup_eq_none_iff]
    constructor
    · intro h line hline
      have := h (line.id, lineMetadata (allSegments connections items) line)
        (List.mem_map.mpr ⟨line, hline, rfl⟩)
      simpa using this
    · intro h p hp
      rw [calculateManualPathsWithBridges, List.mem_map] at hp
      obtain ⟨line, hline, rfl⟩ := hp
      simpa using h line hline
  rw [hlookup]
  constructor
  · intro h
    cases hb : buildLine items conn with
    | none => rfl
    | some l =>
      have hl : l ∈ rawLines connections items :=
        List.mem_filterMap.mpr ⟨conn, hmem, hb⟩
      exact absurd (buildLine_id items conn l hb).symm (h l hl)
  · intro h line hline
    rw [rawLines, List.mem_filterMap] at hline
    obtain ⟨c2, hc2mem, hc2⟩ := hline
    intro hid
    have hid2 : conn.id = c2.id := by rw [hid, buildLine_id items c2 line hc2]
    have : conn = c2 := List.inj_on_of_nodup_map hnodup hmem hc2mem hid2
    rw [this] at h
    rw [h] at hc2
    exact absurd hc2 (by simp)

/-- Witness for C8: with connections `[connGood, connStale]` over items
`[itemL, itemR]`, the stale connection's entry is absent from the output
exactly because its source item is missing, per the theorem's
characterization. -/
theorem unroutable_connection_omitted_witness :
    (List.lookup connStale.id
        (calculateManualPathsWithBridges [connGood, connStale] [itemL, itemR]) = none ↔
      buildLine [itemL, itemR] connStale = none) ∧
    (buildLine [itemL, itemR] connStale = none ↔
      (List.find? (fun i => i.id == connStale.sourceItemId) [itemL, itemR] = none ∨
       List.find? (fun i => i.id == connStale.targetItemId) [itemL, itemR] = none ∨
       (∃ source, List.find? (fun i => i.id == connStale.sourceItemId) [itemL, itemR] = some source ∧
          getGripPosition source connStale.sourceGripIndex = none) ∨
       (∃ target, List.find? (fun i => i.id == connStale.targetItemId) [itemL, itemR] = some target ∧
          getGripPosition target connStale.targetGripIndex = none))) :=
  unroutable_connection_omitted [connGood, connStale] [itemL, itemR]
    (by simp [connGood, connStale]) connStale (by simp)

/-- Helper: every segment built by `mkSegments` has positive length and
carries the requested line id. -/
lemma mkSegments_mem_props (lineId : ℕ) (pts : List Point) (seg : LineSegment)
    (h : seg ∈ mkSegments lineId pts) : 0 < seg.len ∧ seg.lineId = lineId := by
  induction pts with
  | nil => simp [mkSegments] at h
  | cons p1 rest ih =>
    cases rest with
    | nil => simp [mkSegments] at h
    | cons p2 rest2 =>
      rw [mkSegments, List.mem_append] at h
      rcases h with h | h
      · split_ifs at h with hl
        · rw [List.mem_singleton] at h
          rw [h]
          exact ⟨hl, rfl⟩
        · simp at h
      · exact ih h

/-- Helper: the segments of a successfully built line come from
`mkSegments` with the connection's id. -/
lemma buildLine_segments (items : List CanvasItem) (conn : Connection) (l : RawLine)
    (h : buildLine items conn = some l) :
    ∃ pts, l.segments = mkSegments conn.id pts := by
  unfold buildLine at h
  split at h
  · split at h
    · injection h with h2
      exact ⟨_, by rw [← h2]⟩
    · exact absurd h (by simp)
  · exact absurd h (by simp)

/-- Helper: segments reached through `rawLines` have positive length and
carry their line's id. -/
lemma rawLines_segment_props (connections : List Connection) (items : List CanvasItem)
    (line : RawLine) (seg : LineSegment)
    (hline : line ∈ rawLines connections items) (hseg : seg ∈ line.segments) :
    0 < seg.len ∧ seg.lineId = line.id := by
  rw [rawLines, List.mem_filterMap] at hline
  obtain ⟨conn, _, hbuild⟩ := hline
  obtain ⟨pts, hpts⟩ := buildLine_segments items conn line hbuild
  rw [hpts] at hseg
  have hprops := mkSegments_mem_props conn.id pts seg hseg
  exact ⟨hprops.1, by rw [hprops.2, buildLine_id items conn line hbuild]⟩

/-- Helper: a crossing parameter reported by `getIntersectionT` lies
strictly between `0` and the first segment's length. -/
lemma getIntersectionT_bounds (s1 s2 : LineSegment) (t : ℝ)
    (h : getIntersectionT s1 s2 = some t) (hlen : 0 < s1.len) :
    0 < t ∧ t < s1.len := by
  simp only [getIntersectionT] at h
  split_ifs at h with h1 h2
  obtain ⟨ht1, ht2, _, _⟩ := h2
  injection h with h3
  rw [← h3]
  constructor
  · exact mul_pos (lt_trans (by norm_num) ht1) hlen
  · calc _ < 1 * s1.len := by
          exact mul_lt_mul_of_pos_right (lt_trans ht2 (by norm_num)) hlen
      _ = s1.len := one_mul _

/-- Helper: every intersection collected for a segment names a strictly
lower line id and comes from an actual `getIntersectionT` hit against a
pool segment. -/
lemma collectIntersections_mem (pool : List LineSegment) (seg : LineSegment)
    (p : ℝ × ℕ) (h : p ∈ collectIntersections pool seg) :
    p.2 < seg.lineId ∧
      ∃ other ∈ pool, other.lineId = p.2 ∧ getIntersectionT seg other = some p.1 := by
  rw [collectIntersections, List.mem_filterMap] at h
  obtain ⟨other, hother, heq⟩ := h
  split_ifs at heq with he hlt
  cases hg : getIntersectionT seg other with
  | none => rw [hg] at heq; exact absurd heq (by simp)
  | some t =>
    rw [hg] at heq
    injection heq with heq2
    rw [← heq2]
    refine ⟨?_, other, hother, rfl, hg⟩
    rcases Nat.lt_or_ge other.lineId seg.lineId with hx | hx
    · exact hx
    · exact absurd (Nat.lt_of_le_of_ne hx (fun hc => he hc.symm)) hlt

/-- Helper: the sorted intersection list of a segment keeps exactly the
collected elements (as a multiset) and is sorted by parameter. -/
lemma segIntersections_mem (pool : List LineSegment) (seg : LineSegment)
    (p : ℝ × ℕ) :
    p ∈ segIntersections pool seg ↔ p ∈ collectIntersections pool seg := by
  rw [segIntersections, List.mem_mergeSort]

/-- Helper: the sorted intersection list is pairwise nondecreasing in its
parameter. -/
lemma segIntersections_sorted (pool : List LineSegment) (seg : LineSegment) :
    List.Pairwise (fun a b : ℝ × ℕ => a.1 ≤ b.1) (segIntersections pool seg) := by
  have h := @List.sorted_mergeSort (ℝ × ℕ) (fun a b => decide (a.1 ≤ b.1))
    (fun a b c hab hbc => by
      rw [decide_eq_true_eq] at hab hbc ⊢
      exact le_trans hab hbc)
    (fun a b => by
      rcases le_total a.1 b.1 with h | h
      · simp [h]
      · simp [h])
    (collectIntersections pool seg)
  rw [segIntersections]
  exact h.imp fun hab => by rwa [decide_eq_true_eq] at hab

/-- Helper: invariants of the bridge-reconstruction loop: every emitted
bridge `(startT, centerT, endT)` has `0 ≤ startT < endT ≤ len` and
`centerT < endT`, provided every pending crossing parameter lies strictly
inside `(0, len)`. -/
lemma bridgeLoop_mem_props (L : ℝ) (ts : List (ℝ × ℕ))
    (hts : ∀ p ∈ ts, 0 < p.1 ∧ p.1 < L) :
    ∀ cur, 0 ≤ cur → ∀ b ∈ bridgeLoop L cur ts,
      0 ≤ b.1 ∧ b.1 < b.2.2 ∧ b.2.1 < b.2.2 ∧ b.2.2 ≤ L := by
  induction ts with
  | nil => intro cur _ b hb; simp [bridgeLoop] at hb
  | cons c rest ih =>
    intro cur hcur b hb
    have hrest : ∀ p ∈ rest, 0 < p.1 ∧ p.1 < L := fun p hp => hts p (List.mem_cons_of_mem c hp)
    rw [bridgeLoop] at hb
    split_ifs at hb with hskip
    · exact ih hrest cur hcur b hb
    · have hse : max cur (c.1 - BRIDGE_SIZE) < min L (c.1 + BRIDGE_SIZE) := not_le.mp hskip
      rcases List.mem_cons.mp hb with rfl | hb2
      · refine ⟨le_trans hcur (le_max_left _ _), hse, ?_, min_le_left _ _⟩
        exact lt_min (hts c (List.mem_cons_self c rest)).2 (by norm_num [BRIDGE_SIZE])
      · exact ih hrest (min L (c.1 + BRIDGE_SIZE))
          (le_trans (le_trans hcur (le_max_left _ _)) hse.le) b hb2

/-- C3 (amended): every bridge accepted by `calculateManualPathsWithBridges`
satisfies `startT < endT`, `centerT < endT`, and `0 ≤ startT` and
`endT ≤ segment.len` (so both interval ends lie within `[0, segment.len]`);
a bridge whose interval would be degenerate (`startT ≥ endT`) is skipped,
leaving the straight line uninterrupted.  The original claim's
`startT < centerT` does not hold in general: when a previous bridge on the
same segment ends at or past a crossing's `centerT` (crossings less than
`2·BRIDGE_SIZE` apart), the emitted bridge starts at that previous end,
beyond its own center. -/
theorem accepted_bridge_interval_amended (connections : List Connection)
    (items : List CanvasItem) (line : RawLine) (seg : LineSegment)
    (hline : line ∈ rawLines connections items) (hseg : seg ∈ line.segments) :
    (∀ b ∈ segBridges (allSegments connections items) seg,
      0 ≤ b.1 ∧ b.1 < b.2.2 ∧ b.2.1 < b.2.2 ∧ b.2.2 ≤ seg.len) ∧
    (∀ (currentT : ℝ) (inter : ℝ × ℕ) (rest : List (ℝ × ℕ)),
      min seg.len (inter.1 + BRIDGE_SIZE) ≤ max currentT (inter.1 - BRIDGE_SIZE) →
      bridgeLoop seg.len currentT (inter :: rest) = bridgeLoop seg.len currentT rest) := by
  have hlen : 0 < seg.len := (rawLines_segment_props connections items line seg hline hseg).1
  constructor
  · intro b hb
    have hts : ∀ p ∈ segIntersections (allSegments connections items) seg,
        0 < p.1 ∧ p.1 < seg.len := by
      intro p hp
      rw [segIntersections_mem] at hp
      obtain ⟨_, other, _, _, hg⟩ := collectIntersections_mem _ _ p hp
      exact getIntersectionT_bounds seg other p.1 hg hlen
    exact bridgeLoop_mem_props seg.len _ hts 0 le_rfl b hb
  · intro currentT inter rest hskip
    rw [bridgeLoop, if_pos hskip]

/-- Evaluation: length of a vertical displacement. -/
lemma len_vertical (d : ℝ) (h : 0 ≤ d) : len ⟨0, d⟩ = d := by
  rw [len]
  simp only [zero_mul, zero_add]
  exact Real.sqrt_mul_self h

/-- Evaluation: length of a horizontal displacement. -/
lemma len_horizontal (d : ℝ) (h : 0 ≤ d) : len ⟨d, 0⟩ = d := by
  rw [len]
  simp only [zero_mul, add_zero]
  exact Real.sqrt_mul_self h

/-- Evaluation: length of the zero displacement. -/
lemma len_zero : len ⟨0, 0⟩ = 0 := by
  rw [len]
  simp

/-- Evaluation: normalizing an upward vertical displacement. -/
lemma normalize_vertical (d : ℝ) (h : 0 < d) : normalize ⟨0, d⟩ = ⟨0, 1⟩ := by
  rw [normalize, len_vertical d h.le, if_neg (ne_of_gt h)]
  simp [div_self (ne_of_gt h)]

/-- Evaluation: normalizing a rightward horizontal displacement. -/
lemma normalize_horizontal (d : ℝ) (h : 0 < d) : normalize ⟨d, 0⟩ = ⟨1, 0⟩ := by
  rw [normalize, len_horizontal d h.le, if_neg (ne_of_gt h)]
  simp [div_self (ne_of_gt h)]

/-- Evaluation: the aspect-fit rectangle of a square item with matching
natural size is the identity box. -/
lemma aspectFit_10 : calculateAspectFit 10 10 10 10 = ⟨0, 0, 10, 10⟩ := by
  rw [calculateAspectFit]
  norm_num

/-- Evaluation: a `(50, 0)` grip stands off toward the bottom. -/
lemma standoff_b (p : Point) : getStandoff p (some ⟨50, 0⟩) = ⟨p.x, p.y + 20⟩ := by
  rw [getStandoff, getClosestSide_eq_bottom ⟨50, 0⟩ (by norm_num) (by norm_num) (by norm_num)]
  rw [STANDOFF_DIST]

/-- Evaluation: a `(50, 100)` grip stands off toward the top. -/
lemma standoff_t (p : Point) : getStandoff p (some ⟨50, 100⟩) = ⟨p.x, p.y - 20⟩ := by
  rw [getStandoff, getClosestSide_eq_top ⟨50, 100⟩ (by norm_num) (by norm_num) (by norm_num)]
  rw [STANDOFF_DIST]

/-- Evaluation: a `(100, 50)` grip stands off toward the right. -/
lemma standoff_r (p : Point) : getStandoff p (some ⟨100, 50⟩) = ⟨p.x + 20, p.y⟩ := by
  rw [getStandoff, getClosestSide_eq_right ⟨100, 50⟩ (by norm_num) (by norm_num) (by norm_num)]
  rw [STANDOFF_DIST]

/-- Evaluation: a `(0, 50)` grip stands off toward the left. -/
lemma standoff_l (p : Point) : getStandoff p (some ⟨0, 50⟩) = ⟨p.x - 20, p.y⟩ := by
  rw [getStandoff, getClosestSide_eq_left ⟨0, 50⟩ (by norm_num) (by norm_num) (by norm_num)]
  rw [STANDOFF_DIST]

/-- Evaluation: `conn1` builds to `line1`. -/
lemma buildLine_conn1 : buildLine ITEMS conn1 = some line1 := by
  have hv20 : len ⟨0, (20 : ℝ)⟩ = 20 := len_vertical 20 (by norm_num)
  have hv110 : len ⟨0, (110 : ℝ)⟩ = 110 := len_vertical 110 (by norm_num)
  have hn20 : normalize ⟨0, (20 : ℝ)⟩ = ⟨0, 1⟩ := normalize_vertical 20 (by norm_num)
  have hn110 : normalize ⟨0, (110 : ℝ)⟩ = ⟨0, 1⟩ := normalize_vertical 110 (by norm_num)
  have hgs : getGripPosition itemV1a 0 = some ⟨50, -20⟩ := by
    rw [getGripPosition]
    norm_num [itemV1a, aspectFit_10]
  have hgt : getGripPosition itemV1b 0 = some ⟨50, 130⟩ := by
    rw [getGripPosition]
    norm_num [itemV1b, aspectFit_10]
  have hfs : ITEMS.find? (fun i => i.id == (101 : ℕ)) = some itemV1a := rfl
  have hft : ITEMS.find? (fun i => i.id == (102 : ℕ)) = some itemV1b := rfl
  have hgr1 : (itemV1a.grips.bind fun gs => gs[(0 : ℕ)]?) = some (⟨50, 0⟩ : Grip) := rfl
  have hgr2 : (itemV1b.grips.bind fun gs => gs[(0 : ℕ)]?) = some (⟨50, 100⟩ : Grip) := rfl
  norm_num [buildLine, conn1, hfs, hft, hgs, hgt, hgr1, hgr2, standoff_b, standoff_t,
    mkSegments, sub, hv20, hv110, len_zero, hn20, hn110, line1, s11, s12, s13]

/-- Evaluation: `conn2` builds to `line2`. -/
lemma buildLine_conn2 : buildLine ITEMS conn2 = some line2 := by
  have hh20 : len ⟨(20 : ℝ), 0⟩ = 20 := len_horizontal 20 (by norm_num)
  have hh130 : len ⟨(130 : ℝ), 0⟩ = 130 := len_horizontal 130 (by norm_num)
  have hn20 : normalize ⟨(20 : ℝ), 0⟩ = ⟨1, 0⟩ := normalize_horizontal 20 (by norm_num)
  have hn130 : normalize ⟨(130 : ℝ), 0⟩ = ⟨1, 0⟩ := normalize_horizontal 130 (by norm_num)
  have hgs : getGripPosition itemH2a 0 = some ⟨-30, 50⟩ := by
    rw [getGripPosition]
    norm_num [itemH2a, aspectFit_10]
  have hgt : getGripPosition itemH2b 0 = some ⟨140, 50⟩ := by
    rw [getGripPosition]
    norm_num [itemH2b, aspectFit_10]
  have hfs : ITEMS.find? (fun i => i.id == (201 : ℕ)) = some itemH2a := rfl
  have hft : ITEMS.find? (fun i => i.id == (202 : ℕ)) = some itemH2b := rfl
  have hgr1 : (itemH2a.grips.bind fun gs => gs[(0 : ℕ)]?) = some (⟨100, 50⟩ : Grip) := rfl
  have hgr2 : (itemH2b.grips.bind fun gs => gs[(0 : ℕ)]?) = some (⟨0, 50⟩ : Grip) := rfl
  norm_num [buildLine, conn2, hfs, hft, hgs, hgt, hgr1, hgr2, standoff_r, standoff_l,
    mkSegments, sub, hh20, hh130, len_zero, hn20, hn130, line2, s21, s22, s23]

/-- Evaluation: `conn3` builds to `line3`. -/
lemma buildLine_conn3 : buildLine ITEMS conn3 = some line3 := by
  have hv20 : len ⟨0, (20 : ℝ)⟩ = 20 := len_vertical 20 (by norm_num)
  have hv110 : len ⟨0, (110 : ℝ)⟩ = 110 := len_vertical 110 (by norm_num)
  have hn20 : normalize ⟨0, (20 : ℝ)⟩ = ⟨0, 1⟩ := normalize_vertical 20 (by norm_num)
  have hn110 : normalize ⟨0, (110 : ℝ)⟩ = ⟨0, 1⟩ := normalize_vertical 110 (by norm_num)
  have hgs : getGripPosition itemV3a 0 = some ⟨56, -20⟩ := by
    rw [getGripPosition]
    norm_num [itemV3a, aspectFit_10]
  have hgt : getGripPosition itemV3b 0 = some ⟨56, 130⟩ := by
    rw [getGripPosition]
    norm_num [itemV3b, aspectFit_10]
  have hfs : ITEMS.find? (fun i => i.id == (301 : ℕ)) = some itemV3a := rfl
  have hft : ITEMS.find? (fun i => i.id == (302 : ℕ)) = some itemV3b := rfl
  have hgr1 : (itemV3a.grips.bind fun gs => gs[(0 : ℕ)]?) = some (⟨50, 0⟩ : Grip) := rfl
  have hgr2 : (itemV3b.grips.bind fun gs => gs[(0 : ℕ)]?) = some (⟨50, 100⟩ : Grip) := rfl
  norm_num [buildLine, conn3, hfs, hft, hgs, hgt, hgr1, hgr2, standoff_b, standoff_t,
    mkSegments, sub, hv20, hv110, len_zero, hn20, hn110, line3, s31, s32, s33]

/-- Evaluation: `conn4` builds to `line4`. -/
lemma buildLine_conn4 : buildLine ITEMS conn4 = some line4 := by
  have hh20 : len ⟨(20 : ℝ), 0⟩ = 20 := len_horizontal 20 (by norm_num)
  have hh130 : len ⟨(130 : ℝ), 0⟩ = 130 := len_horizontal 130 (by norm_num)
  have hn20 : normalize ⟨(20 : ℝ), 0⟩ = ⟨1, 0⟩ := normalize_horizontal 20 (by norm_num)
  have hn130 : normalize ⟨(130 : ℝ), 0⟩ = ⟨1, 0⟩ := normalize_horizontal 130 (by norm_num)
  have hgs : getGripPosition itemH4a 0 = some ⟨-30, 56⟩ := by
    rw [getGripPosition]
    norm_num [itemH4a, aspectFit_10]
  have hgt : getGripPosition itemH4b 0 = some ⟨140, 56⟩ := by
    rw [getGripPosition]
    norm_num [itemH4b, aspectFit_10]
  have hfs : ITEMS.find? (fun i => i.id == (401 : ℕ)) = some itemH4a := rfl
  have hft : ITEMS.find? (fun i => i.id == (402 : ℕ)) = some itemH4b := rfl
  have hgr1 : (itemH4a.grips.bind fun gs => gs[(0 : ℕ)]?) = some (⟨100, 50⟩ : Grip) := rfl
  have hgr2 : (itemH4b.grips.bind fun gs => gs[(0 : ℕ)]?) = some (⟨0, 50⟩ : Grip) := rfl
  norm_num [buildLine, conn4, hfs, hft, hgs, hgt, hgr1, hgr2, standoff_r, standoff_l,
    mkSegments, sub, hh20, hh130, len_zero, hn20, hn130, line4, s41, s42, s43]

/-- Evaluation: the four connections build to the four lines. -/
lemma rawLines_eval : rawLines CONNS ITEMS = [line1, line2, line3, line4] := by
  simp [rawLines, CONNS, List.filterMap_cons, buildLine_conn1, buildLine_conn2,
    buildLine_conn3, buildLine_conn4]

/-- Evaluation: the flattened segment pool of the crossing scenario. -/
lemma pool_eval : allSegments CONNS ITEMS =
    [s11, s12, s13, s21, s22, s23, s31, s32, s33, s41, s42, s43] := by
  simp [allSegments, rawLines_eval, line1, line2, line3, line4]

/-- Two segments that are both exactly vertical are parallel, so
`getIntersectionT` reports no crossing. -/
lemma getIntersectionT_vert_vert (a b : LineSegment)
    (h1 : a.p1.x = a.p2.x) (h2 : b.p1.x = b.p2.x) :
    getIntersectionT a b = none := by
  have e1 : a.p2.x - a.p1.x = 0 := sub_eq_zero.mpr h1.symm
  have e2 : b.p2.x - b.p1.x = 0 := sub_eq_zero.mpr h2.symm
  simp only [getIntersectionT, sub, e1, e2]
  norm_num

/-- Two segments that are both exactly horizontal are parallel, so
`getIntersectionT` reports no crossing. -/
lemma getIntersectionT_horiz_horiz (a b : LineSegment)
    (h1 : a.p1.y = a.p2.y) (h2 : b.p1.y = b.p2.y) :
    getIntersectionT a b = none := by
  have e1 : a.p2.y - a.p1.y = 0 := sub_eq_zero.mpr h1.symm
  have e2 : b.p2.y - b.p1.y = 0 := sub_eq_zero.mpr h2.symm
  simp only [getIntersectionT, sub, e1, e2]
  norm_num

/-- Line-id projections of the concrete segments. -/
lemma sid11 : s11.lineId = 1 := rfl

/-- Line-id projection of `s12`. -/
lemma sid12 : s12.lineId = 1 := rfl

/-- Line-id projection of `s13`. -/
lemma sid13 : s13.lineId = 1 := rfl

/-- Line-id projection of `s21`. -/
lemma sid21 : s21.lineId = 2 := rfl

/-- Line-id projection of `s22`. -/
lemma sid22 : s22.lineId = 2 := rfl

/-- Line-id projection of `s23`. -/
lemma sid23 : s23.lineId = 2 := rfl

/-- Line-id projection of `s31`. -/
lemma sid31 : s31.lineId = 3 := rfl

/-- Line-id projection of `s32`. -/
lemma sid32 : s32.lineId = 3 := rfl

/-- Line-id projection of `s33`. -/
lemma sid33 : s33.lineId = 3 := rfl

/-- Line-id projection of `s41`. -/
lemma sid41 : s41.lineId = 4 := rfl

/-- Line-id projection of `s42`. -/
lemma sid42 : s42.lineId = 4 := rfl

/-- Line-id projection of `s43`. -/
lemma sid43 : s43.lineId = 4 := rfl

/-- Evaluation: `s21` misses `s11` (parameter out of range). -/
lemma gIT_s21_s11 : getIntersectionT s21 s11 = none := by
  norm_num [getIntersectionT, sub, s21, s11]

/-- Evaluation: `s21` misses `s12`. -/
lemma gIT_s21_s12 : getIntersectionT s21 s12 = none := by
  norm_num [getIntersectionT, sub, s21, s12]

/-- Evaluation: `s21` misses `s13`. -/
lemma gIT_s21_s13 : getIntersectionT s21 s13 = none := by
  norm_num [getIntersectionT, sub, s21, s13]

/-- Evaluation: `s22` misses `s11` (the stub is outside the trunk). -/
lemma gIT_s22_s11 : getIntersectionT s22 s11 = none := by
  norm_num [getIntersectionT, sub, s22, s11]

/-- Evaluation: `s22` crosses `s12` at distance 60 along `s22` — the
crossing of `conn2` and `conn1` at `(50, 50)`. -/
lemma gIT_s22_s12 : getIntersectionT s22 s12 = some 60 := by
  norm_num [getIntersectionT, sub, s22, s12]

/-- Evaluation: `s22` misses `s13`. -/
lemma gIT_s22_s13 : getIntersectionT s22 s13 = none := by
  norm_num [getIntersectionT, sub, s22, s13]

/-- Evaluation: `s23` misses `s11`. -/
lemma gIT_s23_s11 : getIntersectionT s23 s11 = none := by
  norm_num [getIntersectionT, sub, s23, s11]

/-- Evaluation: `s23` misses `s12`. -/
lemma gIT_s23_s12 : getIntersectionT s23 s12 = none := by
  norm_num [getIntersectionT, sub, s23, s12]

/-- Evaluation: `s23` misses `s13`. -/
lemma gIT_s23_s13 : getIntersectionT s23 s13 = none := by
  norm_num [getIntersectionT, sub, s23, s13]

/-- Evaluation: `s32` crosses `s22` at distance 50 along `s32` — the
crossing of `conn3` and `conn2` at `(56, 50)`. -/
lemma gIT_s32_s22 : getIntersectionT s32 s22 = some 50 := by
  norm_num [getIntersectionT, sub, s32, s22]

/-- Evaluation: `s42` misses `s11`. -/
lemma gIT_s42_s11 : getIntersectionT s42 s11 = none := by
  norm_num [getIntersectionT, sub, s42, s11]

/-- Evaluation: `s42` crosses `s12` at distance 60 along `s42` — the
crossing of `conn4` and `conn1` at `(50, 56)`. -/
lemma gIT_s42_s12 : getIntersectionT s42 s12 = some 60 := by
  norm_num [getIntersectionT, sub, s42, s12]

/-- Evaluation: `s42` misses `s13`. -/
lemma gIT_s42_s13 : getIntersectionT s42 s13 = none := by
  norm_num [getIntersectionT, sub, s42, s13]

/-- Evaluation: `s42` misses `s31`. -/
lemma gIT_s42_s31 : getIntersectionT s42 s31 = none := by
  norm_num [getIntersectionT, sub, s42, s31]

/-- Evaluation: `s42` crosses `s32` at distance 66 along `s42` — the
crossing of `conn4` and `conn3` at `(56, 56)`, 6 units after the previous
crossing. -/
lemma gIT_s42_s32 : getIntersectionT s42 s32 = some 66 := by
  norm_num [getIntersectionT, sub, s42, s32]

/-- Evaluation: `s42` misses `s33`. -/
lemma gIT_s42_s33 : getIntersectionT s42 s33 = none := by
  norm_num [getIntersectionT, sub, s42, s33]

/-- Evaluation: the crossing scan of `s21` collects nothing. -/
lemma collect_s21 : collectIntersections
    [s11, s12, s13, s21, s22, s23, s31, s32, s33, s41, s42, s43] s21 = [] := by
  simp [collectIntersections, List.filterMap_cons, sid11, sid12, sid13, sid21, sid22,
    sid23, sid31, sid32, sid33, sid41, sid42, sid43, gIT_s21_s11, gIT_s21_s12, gIT_s21_s13]

/-- Evaluation: the crossing scan of `s22` collects exactly the crossing
with `conn1` at parameter 60. -/
lemma collect_s22 : collectIntersections
    [s11, s12, s13, s21, s22, s23, s31, s32, s33, s41, s42, s43] s22 = [(60, 1)] := by
  simp [collectIntersections, List.filterMap_cons, sid11, sid12, sid13, sid21, sid22,
    sid23, sid31, sid32, sid33, sid41, sid42, sid43, gIT_s22_s11, gIT_s22_s12, gIT_s22_s13]

/-- Evaluation: the crossing scan of `s23` collects nothing. -/
lemma collect_s23 : collectIntersections
    [s11, s12, s13, s21, s22, s23, s31, s32, s33, s41, s42, s43] s23 = [] := by
  simp [collectIntersections, List.filterMap_cons, sid11, sid12, sid13, sid21, sid22,
    sid23, sid31, sid32, sid33, sid41, sid42, sid43, gIT_s23_s11, gIT_s23_s12, gIT_s23_s13]

/-- Evaluation: the crossing scan of `s42` collects the crossings with
`conn1` (parameter 60) and `conn3` (parameter 66), in pool order. -/
lemma collect_s42 : collectIntersections
    [s11, s12, s13, s21, s22, s23, s31, s32, s33, s41, s42, s43] s42 = [(60, 1), (66, 3)] := by
  have hp1 : getIntersectionT s42 s21 = none := getIntersectionT_horiz_horiz s42 s21 rfl rfl
  have hp2 : getIntersectionT s42 s22 = none := getIntersectionT_horiz_horiz s42 s22 rfl rfl
  have hp3 : getIntersectionT s42 s23 = none := getIntersectionT_horiz_horiz s42 s23 rfl rfl
  simp [collectIntersections, List.filterMap_cons, sid11, sid12, sid13, sid21, sid22,
    sid23, sid31, sid32, sid33, sid41, sid42, sid43, gIT_s42_s11, gIT_s42_s12, gIT_s42_s13,
    gIT_s42_s31, gIT_s42_s32, gIT_s42_s33, hp1, hp2, hp3]

/-- Evaluation: `s21` gets no bridges. -/
lemma bridges_s21 : segBridges (allSegments CONNS ITEMS) s21 = [] := by
  rw [segBridges, segIntersections, pool_eval, collect_s21, List.mergeSort_nil, bridgeLoop]

/-- Evaluation: `s22` gets exactly one bridge over `conn1`, spanning
parameters 48 to 72 around the crossing at 60. -/
lemma bridges_s22 : segBridges (allSegments CONNS ITEMS) s22 = [(48, 60, 72)] := by
  rw [segBridges, segIntersections, pool_eval, collect_s22, List.mergeSort_singleton]
  have hs22 : s22.len = 130 := rfl
  rw [bridgeLoop]
  norm_num [BRIDGE_SIZE, hs22, max_def, min_def, bridgeLoop]

/-- Evaluation: `s23` gets no bridges. -/
lemma bridges_s23 : segBridges (allSegments CONNS ITEMS) s23 = [] := by
  rw [segBridges, segIntersections, pool_eval, collect_s23, List.mergeSort_nil, bridgeLoop]

/-- Evaluation: `s42` gets two bridges; the second one, emitted for the
crossing at 66, starts at 72 — past its own center — because the first
bridge already extends to 72. -/
lemma bridges_s42 : segBridges (allSegments CONNS ITEMS) s42 = [(48, 60, 72), (72, 66, 78)] := by
  rw [segBridges, segIntersections, pool_eval, collect_s42,
    List.mergeSort_of_sorted (by simp [List.pairwise_cons]; norm_num)]
  have hs42 : s42.len = 130 := rfl
  rw [bridgeLoop]
  norm_num [BRIDGE_SIZE, hs42, max_def, min_def, bridgeLoop]

/-- Evaluation: the full command list of `conn2`: a single bridge (the
jump over `conn1`) whose chord runs from `(38, 50)` to `(62, 50)`,
centered on the crossing `(50, 50)`. -/
lemma cmds_line2 : linePath (allSegments CONNS ITEMS) line2 =
    [PathCmd.M ⟨-30, 50⟩, PathCmd.L ⟨-10, 50⟩, PathCmd.L ⟨38, 50⟩,
     PathCmd.Q ⟨50, 74⟩ ⟨62, 50⟩, PathCmd.L ⟨120, 50⟩, PathCmd.L ⟨140, 50⟩] := by
  simp only [linePath, line2, List.flatMap_cons, List.flatMap_nil, segCmds,
    bridges_s21, bridges_s22, bridges_s23, List.append_nil]
  norm_num [bridgeCmds, add, mult, perp, s21, s22, s23, BRIDGE_HEIGHT]

/-- Counterexample to C3 as stated: in the four-connection scenario the
bridge `(startT, centerT, endT) = (72, 66, 78)` is accepted on `conn4`'s
trunk segment (its interval is not degenerate), yet `startT < centerT`
fails: the bridge starts 6 units past its own crossing center, because
the crossing with `conn1` at parameter 60 already produced a bridge
extending to 72. -/
theorem accepted_bridge_interval_counterexample :
    line4 ∈ rawLines CONNS ITEMS ∧ s42 ∈ line4.segments ∧
    (72, 66, 78) ∈ segBridges (allSegments CONNS ITEMS) s42 ∧
    ¬ ((72 : ℝ) < 66) := by
  refine ⟨?_, ?_, ?_, by norm_num⟩
  · rw [rawLines_eval]; simp
  · simp [line4]
  · rw [bridges_s42]; simp

/-- Witness for C3 (amended): the first accepted bridge of `conn4`'s trunk
satisfies the amended containment bounds. -/
theorem accepted_bridge_interval_amended_witness :
    0 ≤ (48 : ℝ) ∧ (48 : ℝ) < 72 ∧ (60 : ℝ) < 72 ∧ (72 : ℝ) ≤ s42.len :=
  (accepted_bridge_interval_amended CONNS ITEMS line4 s42
      (by rw [rawLines_eval]; simp) (by simp [line4])).1 (48, 60, 72)
    (by rw [bridges_s42]; simp)

/-- Helper (covering): every pending crossing parameter strictly between
the loop's current position and the segment length is covered by the
closed interval of some emitted bridge — even when its own bridge is
skipped as degenerate, an earlier bridge's chord spans the point. -/
lemma bridgeLoop_covers (L : ℝ) (ts : List (ℝ × ℕ))
    (hsort : List.Pairwise (fun a b : ℝ × ℕ => a.1 ≤ b.1) ts) :
    ∀ (cur : ℝ) (p : ℝ × ℕ), p ∈ ts → cur < p.1 → p.1 < L →
      ∃ b ∈ bridgeLoop L cur ts, b.1 ≤ p.1 ∧ p.1 ≤ b.2.2 := by
  induction ts with
  | nil => intro cur p hp; simp at hp
  | cons c rest ih =>
    intro cur p hp hcur hL
    have hBpos : (0 : ℝ) < BRIDGE_SIZE := by norm_num [BRIDGE_SIZE]
    rw [List.pairwise_cons] at hsort
    rw [bridgeLoop]
    split_ifs with hskip
    · -- head bridge skipped: the skipped crossing cannot be the pending one
      rcases List.mem_cons.mp hp with rfl | hp2
      · exfalso
        have h1 : max cur (p.1 - BRIDGE_SIZE) < p.1 := max_lt hcur (by linarith)
        have h2 : p.1 < min L (p.1 + BRIDGE_SIZE) := lt_min hL (by linarith)
        exact absurd hskip (not_le.mpr (lt_trans h1 h2))
      · exact ih hsort.2 cur p hp2 hcur hL
    · rcases List.mem_cons.mp hp with rfl | hp2
      · -- the head crossing is covered by its own bridge
        refine ⟨(max cur (p.1 - BRIDGE_SIZE), p.1, min L (p.1 + BRIDGE_SIZE)),
          List.mem_cons_self _ _, ?_, ?_⟩
        · exact max_le hcur.le (by linarith)
        · exact le_min hL.le (by linarith)
      · have hc_le : c.1 ≤ p.1 := hsort.1 p hp2
        by_cases hpe : p.1 ≤ min L (c.1 + BRIDGE_SIZE)
        · -- covered by the head bridge's chord
          refine ⟨(max cur (c.1 - BRIDGE_SIZE), c.1, min L (c.1 + BRIDGE_SIZE)),
            List.mem_cons_self _ _, ?_, hpe⟩
          exact max_le hcur.le (by linarith)
        · -- strictly past the head bridge: recurse from its end
          obtain ⟨b, hb, hb2⟩ :=
            ih hsort.2 (min L (c.1 + BRIDGE_SIZE)) p hp2 (not_le.mp hpe) hL
          exact ⟨b, List.mem_cons_of_mem _ hb, hb2⟩

/-- Helper: a line whose id is minimal within the segment pool collects no
intersections on any of its segments, hence renders no `Q` command. -/
lemma minimal_id_no_Q (connections : List Connection) (items : List CanvasItem)
    (line : RawLine) (hline : line ∈ rawLines connections items)
    (hmin : ∀ other ∈ allSegments connections items, line.id ≤ other.lineId) :
    ∀ c ∈ linePath (allSegments connections items) line, ¬ c.isQ := by
  intro c hc
  rw [linePath, List.mem_append] at hc
  rcases hc with hc | hc
  · -- the moveto prefix
    rcases hseg : line.segments with _ | ⟨s0, rest⟩
    · rw [hseg] at hc; simp at hc
    · rw [hseg] at hc
      rw [List.mem_singleton] at hc
      rw [hc]
      simp [PathCmd.isQ]
  · rw [List.mem_flatMap] at hc
    obtain ⟨seg, hsegmem, hcmem⟩ := hc
    have hid : seg.lineId = line.id :=
      (rawLines_segment_props connections items line seg hline hsegmem).2
    have hcollect : collectIntersections (allSegments connections items) seg = [] := by
      rw [collectIntersections, List.filterMap_eq_nil_iff]
      intro other hother
      split_ifs with he hlt
      · rfl
      · rfl
      · exfalso
        have hge : line.id ≤ other.lineId := hmin other hother
        rw [hid] at he hlt
        exact he (Nat.le_antisymm (Nat.le_of_not_lt hlt) hge)
    rw [segCmds, segBridges, segIntersections, hcollect, List.mergeSort_nil,
      bridgeLoop] at hcmem
    simp only [List.flatMap_nil, List.nil_append, List.mem_singleton] at hcmem
    rw [hcmem]
    simp [PathCmd.isQ]

/-- C1 (amended): (a) the crossing scan of a segment only ever collects
connections with strictly lower id (so equal-id collisions are never
bridged and a bridge is always placed on the numerically higher id); (b)
whenever a pipeline segment of connection `j` truly crosses a pool segment
of a lower-id connection `i`, connection `j`'s rendered path contains a
`Q` bridge whose chord covers the crossing point; (c) a connection whose
id is minimal within the pool renders no `Q` command at all.  (The
original claim's stronger statement — that the lower connection `i` passes
the crossing point with only `L` commands — fails when a third connection
with id lower than `i` crosses `i` within `BRIDGE_SIZE` of that same
point.) -/
theorem bridges_go_to_higher_id_amended :
    (∀ (pool : List LineSegment) (seg : LineSegment) (p : ℝ × ℕ),
      p ∈ collectIntersections pool seg → p.2 < seg.lineId) ∧
    (∀ (connections : List Connection) (items : List CanvasItem) (line : RawLine)
        (seg other : LineSegment) (t : ℝ),
      line ∈ rawLines connections items → seg ∈ line.segments →
      other ∈ allSegments connections items → other.lineId < seg.lineId →
      getIntersectionT seg other = some t →
      hasQBridgeAt (linePath (allSegments connections items) line) (pointAt seg t)) ∧
    (∀ (connections : List Connection) (items : List CanvasItem) (line : RawLine),
      line ∈ rawLines connections items →
      (∀ other ∈ allSegments connections items, line.id ≤ other.lineId) →
      ∀ c ∈ linePath (allSegments connections items) line, ¬ c.isQ) := by
  refine ⟨?_, ?_, minimal_id_no_Q⟩
  · intro pool seg p hp
    exact (collectIntersections_mem pool seg p hp).1
  · intro connections items line seg other t hline hseg hother hlt hcross
    set pool := allSegments connections items with hpool
    have hlen : 0 < seg.len := (rawLines_segment_props connections items line seg hline hseg).1
    have htb := getIntersectionT_bounds seg other t hcross hlen
    -- the crossing is collected ...
    have hcollect : (t, other.lineId) ∈ collectIntersections pool seg := by
      rw [collectIntersections, List.mem_filterMap]
      refine ⟨other, hother, ?_⟩
      rw [if_neg (Nat.ne_of_lt hlt), if_neg (Nat.lt_asymm hlt), hcross]
    -- ... hence present in the sorted list, hence covered by some bridge
    have hsorted := segIntersections_sorted pool seg
    have hmem : (t, other.lineId) ∈ segIntersections pool seg := by
      rw [segIntersections_mem]; exact hcollect
    obtain ⟨b, hb, hb1, hb2⟩ :=
      bridgeLoop_covers seg.len (segIntersections pool seg) hsorted 0
        (t, other.lineId) hmem htb.1 htb.2
    -- the bridge interval is nondegenerate
    have hts : ∀ p ∈ segIntersections pool seg, 0 < p.1 ∧ p.1 < seg.len := by
      intro p hp
      rw [segIntersections_mem] at hp
      obtain ⟨_, o2, _, _, hg⟩ := collectIntersections_mem _ _ p hp
      exact getIntersectionT_bounds seg o2 p.1 hg hlen
    have hprops := bridgeLoop_mem_props seg.len _ hts 0 le_rfl b hb
    -- the bridge commands are an infix of the line's path commands
    have hinfix : List.IsInfix (bridgeCmds seg b) (linePath pool line) := by
      have h1 : bridgeCmds seg b ∈ (segBridges pool seg).map (bridgeCmds seg) :=
        List.mem_map.mpr ⟨b, hb, rfl⟩
      have h2 : List.IsInfix (bridgeCmds seg b) (segCmds pool seg) := by
        rw [segCmds, List.flatMap_def]
        exact (List.infix_of_mem_flatten h1).trans
          (List.prefix_append _ _).isInfix
      have h3 : List.IsInfix (segCmds pool seg) (linePath pool line) := by
        rw [linePath, List.flatMap_def]
        refine List.IsInfix.trans ?_ (List.suffix_append _ _).isInfix
        exact List.infix_of_mem_flatten (List.mem_map.mpr ⟨seg, hseg, rfl⟩)
      exact h2.trans h3
    -- and its chord covers the crossing point
    refine ⟨add seg.p1 (mult seg.dir b.1), _, add seg.p1 (mult seg.dir b.2.2),
      hinfix, ?_⟩
    have hdenom : 0 < b.2.2 - b.1 := by linarith [hprops.2.1]
    refine ⟨(t - b.1) / (b.2.2 - b.1), ?_, ?_, ?_, ?_⟩
    · exact div_nonneg (by linarith) hdenom.le
    · rw [div_le_one hdenom]; linarith
    · show (pointAt seg t).x = _
      rw [pointAt]
      simp only [add, mult]
      field_simp
      ring
    · show (pointAt seg t).y = _
      rw [pointAt]
      simp only [add, mult]
      field_simp
      ring

/-- Witness for C1 (amended): in the concrete scenario, connection 3's
trunk crosses connection 2's trunk, and connection 3's rendered path
carries a `Q` bridge over the crossing point. -/
theorem bridges_go_to_higher_id_amended_witness :
    hasQBridgeAt (linePath (allSegments CONNS ITEMS) line3) (pointAt s32 50) :=
  bridges_go_to_higher_id_amended.2.1 CONNS ITEMS line3 s32 s22 50
    (by rw [rawLines_eval]; simp) (by simp [line3]) (by rw [pool_eval]; simp)
    (by rw [sid22, sid32]; norm_num) gIT_s32_s22

/-- Counterexample to C1 as stated: connections 2 and 3 cross at
`(56, 50)` (`i = 2 < j = 3`), so the claim asserts that connection 2's
path passes that point with only `L` commands; but connection 2's path
contains a `Q` bridge (its jump over connection 1, with chord from
`(38, 50)` to `(62, 50)`) whose chord covers `(56, 50)`. -/
theorem bridges_go_to_higher_id_counterexample :
    line2 ∈ rawLines CONNS ITEMS ∧ line3 ∈ rawLines CONNS ITEMS ∧
    s22 ∈ line2.segments ∧ s32 ∈ line3.segments ∧ s22.lineId < s32.lineId ∧
    getIntersectionT s32 s22 = some 50 ∧ pointAt s32 50 = ⟨56, 50⟩ ∧
    hasQBridgeAt (linePath (allSegments CONNS ITEMS) line2) ⟨56, 50⟩ := by
  refine ⟨by rw [rawLines_eval]; simp, by rw [rawLines_eval]; simp,
    by simp [line2], by simp [line3], by rw [sid22, sid32]; norm_num,
    gIT_s32_s22, by norm_num [pointAt, add, mult, s32], ?_⟩
  rw [cmds_line2]
  refine ⟨⟨38, 50⟩, ⟨50, 74⟩, ⟨62, 50⟩,
    ⟨[PathCmd.M ⟨-30, 50⟩, PathCmd.L ⟨-10, 50⟩],
     [PathCmd.L ⟨120, 50⟩, PathCmd.L ⟨140, 50⟩], rfl⟩, ?_⟩
  exact ⟨3 / 4, by norm_num, by norm_num, by norm_num, by norm_num⟩

end

end Routing
